import Mathlib

/-
Verification of the resilient MongoDB connection module of the
AI-Learning-Assistant backend (src/backend/config/db.js).

The module keeps one logical connection per process.  Its observable
behaviour is embedded shallowly:

* `connectDB` (db.js lines 86-150) is modelled as a pure function of
  - the connection string (`uri : Option String`, `none` for an absent
    MONGODB_URI; the JS guard is falsy, so the empty string also fails),
  - an oracle `ok : Nat → Bool` giving the outcome of attempt number n
    of the underlying `mongoose.connect` call,
  - an oracle `dur : Nat → Nat` giving the elapsed milliseconds spent
    inside attempt number n (bounded by the per-attempt timeouts),
  - the value of the module-level counter `connectionAttempts` on entry.
  It returns the attempts made, the final counter, the warm-up sleep, the
  list of backoff sleeps, the time spent in attempts, and the result
  (success / config error / fatal startup error).  Thrown JS errors are
  the `configError` and `fatalStartup` results.

* `checkDBHealth` (lines 170-190) is a function of the observed
  `mongoose.connection.readyState`, the outcome of the admin ping, and
  the optional host / database names (the timestamp field is wall-clock
  output and is not modelled).

* `disconnectDB` (lines 197-205) acts on a state holding the monitor
  timer and the driver readyState; the underlying `mongoose.disconnect`
  may fail, which the code catches and logs.  The returned Bool flag
  records that a close-time error was logged (never rethrown).

* `startConnectionMonitor` (lines 222-276) installs a periodic tick; the
  body of one tick is modelled by `monitorTick`, an atomic transition on
  the monitor state (`_lastDisconnectedAt`, `_reconnecting`, and the
  shared `connectionAttempts` counter).  `Date.now()` readings are the
  `now : Nat` input; JS computes `elapsed` with signed subtraction, but
  since the grace period is positive, truncated Nat subtraction takes
  the same branch, so Nat is faithful.

* `classifyError` (lines 155-164) maps an error value (its `code` and
  `name` fields) to the diagnostic category whose message it prints.
-/

/-- Maximum number of connection attempts: MAX_RETRIES in db.js line 41. -/
def MAX_RETRIES : Nat := 7

/-- Monitor tick period in milliseconds: MONITOR_INTERVAL_MS, db.js line 213. -/
def MONITOR_INTERVAL_MS : Nat := 15000

/-- Grace period before a forced reconnect, ms: RECONNECT_GRACE_MS, db.js line 214. -/
def RECONNECT_GRACE_MS : Nat := 10000

/-- Backoff delay computed for attempt number n, db.js line 136:
`Math.min(2000 * Math.pow(2, connectionAttempts - 1), 15000)`. -/
def backoffDelay (n : Nat) : Nat := min (2000 * 2 ^ (n - 1)) 15000

/-- Check whether the list starts with the given pattern (character-wise). -/
def startsWithList : List Char → List Char → Bool
  | _, [] => true
  | [], _ :: _ => false
  | c :: cs, p :: ps => c == p && startsWithList cs ps

/-- Substring containment on character lists, the semantics of the JS
`String.prototype.includes` used in db.js line 104. -/
def strContainsList : List Char → List Char → Bool
  | [], pat => pat.isEmpty
  | c :: cs, pat => startsWithList (c :: cs) pat || strContainsList cs pat

/-- JS `s.includes(pat)`. -/
def strContains (s pat : String) : Bool := strContainsList s.toList pat.toList

/-- Test from db.js line 104:
`uri.includes('127.0.0.1') || uri.includes('localhost')`. -/
def isLocalUri (u : String) : Bool :=
  strContains u "127.0.0.1" || strContains u "localhost"

/-- Warm-up sleep before the very first attempt, db.js line 105:
2000 ms for a local target, 3000 ms otherwise. -/
def warmupDelay (u : String) : Nat := if isLocalUri u then 2000 else 3000

/-- Outcome of the retry loop of db.js lines 113-141. -/
structure LoopResult where
  made : Nat
  finalCounter : Nat
  delays : List Nat
  attemptMs : Nat
  success : Bool
  deriving DecidableEq, Repr

/-- Shallow embedding of the `while (connectionAttempts < MAX_RETRIES)` loop
(db.js lines 113-141).  `counter` is the module-level `connectionAttempts`;
`fuel` is an upper bound on the remaining iterations (the counter strictly
increases each iteration, so `MAX_RETRIES + 1` fuel always suffices).  On a
successful attempt the counter is reset to 0 (line 121) and the connection
is returned; on failure, if attempts remain, the backoff delay for the
current attempt number is slept (lines 134-139). -/
def connectLoop (ok : Nat → Bool) (dur : Nat → Nat) : Nat → Nat → LoopResult
  | counter, 0 => ⟨0, counter, [], 0, false⟩
  | counter, fuel + 1 =>
    if counter < MAX_RETRIES then
      let a := counter + 1
      if ok a then ⟨1, 0, [], dur a, true⟩
      else
        let r := connectLoop ok dur a fuel
        if a < MAX_RETRIES then
          ⟨r.made + 1, r.finalCounter, backoffDelay a :: r.delays, dur a + r.attemptMs, r.success⟩
        else
          ⟨r.made + 1, r.finalCounter, r.delays, dur a + r.attemptMs, r.success⟩
    else ⟨0, counter, [], 0, false⟩

/-- Result of a `connectDB()` call: the returned connection, the immediate
configuration error for a missing/empty MONGODB_URI (db.js lines 91-98), or
the fatal error after all retries are exhausted (lines 144-149). -/
inductive ConnectResult
  | ok
  | configError
  | fatalStartup
  deriving DecidableEq, Repr

/-- Observable outcome of one `connectDB()` call. -/
structure ConnectOutcome where
  made : Nat
  finalCounter : Nat
  warmupMs : Nat
  delays : List Nat
  attemptMs : Nat
  result : ConnectResult
  deriving DecidableEq, Repr

/-- Shallow embedding of `connectDB` (db.js lines 86-150).  `attempts0` is
the module-level `connectionAttempts` on entry: the code does NOT reset it
at the start of the call; the warm-up sleep runs only when it is 0
(line 103). -/
def connectDB (uri : Option String) (ok : Nat → Bool) (dur : Nat → Nat)
    (attempts0 : Nat) : ConnectOutcome :=
  match uri with
  | none => ⟨0, attempts0, 0, [], 0, ConnectResult.configError⟩
  | some u =>
    if u = "" then ⟨0, attempts0, 0, [], 0, ConnectResult.configError⟩
    else
      let w := if attempts0 = 0 then warmupDelay u else 0
      let r := connectLoop ok dur attempts0 (MAX_RETRIES + 1)
      ⟨r.made, r.finalCounter, w, r.delays, r.attemptMs,
        if r.success then ConnectResult.ok else ConnectResult.fatalStartup⟩

/-- Total milliseconds the call spends waiting: warm-up sleep, time inside
the attempts themselves, and the backoff sleeps. -/
def ConnectOutcome.totalWaitMs (o : ConnectOutcome) : Nat :=
  o.warmupMs + o.attemptMs + o.delays.sum

/-- Diagnostic categories of the failure classifier (db.js lines 155-164);
each corresponds to one printed diagnostic line, `Unknown` to none. -/
inductive DiagnosticCategory
  | ConnectionRefused
  | NameResolutionFailure
  | MalformedAddress
  | NetworkUnreachable
  | Unknown
  deriving DecidableEq, Repr

/-- The fields of a caught JS error value that the classifier inspects. -/
structure JsError where
  code : Option String
  name : Option String
  deriving DecidableEq, Repr

/-- Shallow embedding of `classifyError` (db.js lines 155-164): an
if/else-if chain on `err.code` and `err.name`, first match wins, no
matching branch means no diagnostic line (category `Unknown`). -/
def classifyError (e : JsError) : DiagnosticCategory :=
  if e.code = some "ECONNREFUSED" then DiagnosticCategory.ConnectionRefused
  else if e.code = some "ENOTFOUND" then DiagnosticCategory.NameResolutionFailure
  else if e.name = some "MongoParseError" then DiagnosticCategory.MalformedAddress
  else if e.name = some "MongoNetworkError" then DiagnosticCategory.NetworkUnreachable
  else DiagnosticCategory.Unknown

/-- Health report returned by `checkDBHealth` (db.js lines 182-189); the
timestamp field is wall-clock output and is not modelled. -/
structure HealthReport where
  connected : Bool
  state : String
  responsive : Bool
  host : String
  database : String
  deriving DecidableEq, Repr

/-- State-name table of db.js line 172, with the `|| 'Unknown'` fallback. -/
def readyStateName (s : Nat) : String :=
  if s = 0 then "Disconnected"
  else if s = 1 then "Connected"
  else if s = 2 then "Connecting"
  else if s = 3 then "Disconnecting"
  else "Unknown"

/-- Shallow embedding of `checkDBHealth` (db.js lines 170-190).  The ping
runs only when readyState is 1; `pingOk` is its outcome.  `connected` is
`state === 1 && responsive` (line 183). -/
def checkDBHealth (readyState : Nat) (pingOk : Bool)
    (host? db? : Option String) : HealthReport :=
  let responsive := readyState == 1 && pingOk
  ⟨readyState == 1 && responsive, readyStateName readyState, responsive,
    host?.getD "n/a", db?.getD "n/a"⟩

/-- Convenience check `isDBConnected` (db.js lines 193-194). -/
def isDBConnected (readyState : Nat) : Bool := readyState == 1

/-- Process-level state acted on by `disconnectDB`: whether the monitor
timer is installed, and the driver readyState. -/
structure SysState where
  monitorRunning : Bool
  readyState : Nat
  deriving DecidableEq, Repr

/-- Shallow embedding of `stopConnectionMonitor` (db.js lines 281-286):
clears the interval timer; idempotent by the `if (_monitorTimer)` guard. -/
def stopConnectionMonitor (s : SysState) : SysState := ⟨false, s.readyState⟩

/-- Effect of the guarded `await mongoose.disconnect()` of db.js
lines 199-204.  When the close fails the error is caught and logged
(second component `true`) and never rethrown; otherwise the handle is
closed (readyState 0). -/
def closeHandle (closeFails : Bool) (s : SysState) : SysState × Bool :=
  if closeFails then (s, true) else (⟨s.monitorRunning, 0⟩, false)

/-- Shallow embedding of `disconnectDB` (db.js lines 197-205): stop the
monitor first, then close the handle with errors swallowed. -/
def disconnectDB (closeFails : Bool) (s : SysState) : SysState × Bool :=
  closeHandle closeFails (stopConnectionMonitor s)

/-- Monitor-owned mutable state (db.js lines 212-216): `_lastDisconnectedAt`,
`_reconnecting`, and the shared module counter `connectionAttempts`. -/
structure MonState where
  lastDisconnectedAt : Option Nat
  reconnecting : Bool
  connAttempts : Nat
  deriving DecidableEq, Repr

/-- Result of one monitor tick: the post-state and whether this tick forced
a reconnect (i.e. invoked `connectDB`). -/
structure TickResult where
  st : MonState
  forced : Bool
  deriving DecidableEq, Repr

/-- Shallow embedding of the body of one monitor tick (db.js lines 225-271),
taken as an atomic transition.  Inputs: the connect oracles (used if this
tick forces a reconnect), the observed readyState, the ping outcome (used
when readyState is 1), and the `Date.now()` reading.  The forced-reconnect
branch sets `_reconnecting`, best-effort closes the stale handle (no effect
on this state), zeroes `connectionAttempts` (line 260), calls `connectDB`,
clears `_lastDisconnectedAt` only on success (lines 262-267), and clears
`_reconnecting` in the `finally` (line 269). -/
def monitorTick (uri : Option String) (ok : Nat → Bool) (dur : Nat → Nat)
    (readyState : Nat) (pingOk : Bool) (now : Nat) (s : MonState) : TickResult :=
  if s.reconnecting then ⟨s, false⟩
  else if readyState = 1 then
    if pingOk then ⟨⟨none, s.reconnecting, s.connAttempts⟩, false⟩
    else ⟨⟨some (s.lastDisconnectedAt.getD now), s.reconnecting, s.connAttempts⟩, false⟩
  else if readyState = 2 then ⟨s, false⟩
  else
    match s.lastDisconnectedAt with
    | none => ⟨⟨some now, s.reconnecting, s.connAttempts⟩, false⟩
    | some t =>
      if now - t < RECONNECT_GRACE_MS then ⟨s, false⟩
      else
        let r := connectDB uri ok dur 0
        if r.result = ConnectResult.ok then ⟨⟨none, false, r.finalCounter⟩, true⟩
        else ⟨⟨some t, false, r.finalCounter⟩, true⟩

/-- Claim C2: for every attempt number n in 1..7, the backoff delay slept
before the next retry equals min(2000 * 2^(n-1), 15000) milliseconds; in
particular delayFor(1)=2000, delayFor(4)=15000 (capped) and
delayFor(7)=15000.  The policy is a pure function of the attempt number,
hence deterministic with no jitter. -/
theorem backoffDelay_spec (n : Nat) (_h1 : 1 ≤ n) (_h2 : n ≤ 7) :
    backoffDelay n = min (2000 * 2 ^ (n - 1)) 15000 ∧
    backoffDelay 1 = 2000 ∧ backoffDelay 4 = 15000 ∧ backoffDelay 7 = 15000 :=
  ⟨rfl, by decide, by decide, by decide⟩

/-- Witness for C2 at the concrete attempt number 4. -/
theorem backoffDelay_spec_witness :
    (1 ≤ 4 ∧ 4 ≤ 7) ∧ backoffDelay 4 = min (2000 * 2 ^ (4 - 1)) 15000 :=
  ⟨by decide, (backoffDelay_spec 4 (by decide) (by decide)).1⟩

/-- Claim C5: a `connectDB()` call made while MONGODB_URI is absent fails
immediately with the configuration error, makes zero connection attempts,
sleeps nothing (no warm-up, no backoff) and is never retried. -/
theorem connectDB_missing_uri (ok : Nat → Bool) (dur : Nat → Nat) (a0 : Nat) :
    connectDB none ok dur a0 = ⟨0, a0, 0, [], 0, ConnectResult.configError⟩ := rfl

/-- Claim C7: `checkDBHealth` on a never-connected manager (readyState 0,
no host, no database) reports connected=false, state="Disconnected",
responsive=false, whatever a ping would have returned. -/
theorem checkDBHealth_never_connected (pingOk : Bool) :
    (checkDBHealth 0 pingOk none none).connected = false ∧
    (checkDBHealth 0 pingOk none none).state = "Disconnected" ∧
    (checkDBHealth 0 pingOk none none).responsive = false :=
  ⟨rfl, rfl, rfl⟩

/-- Claim C8: `disconnectDB` stops the monitor strictly before closing the
handle, always leaves the monitor stopped, is idempotent (a second call
reproduces the same state), and swallows close-time errors into a log flag
instead of throwing — the embedding is a total function even when the
underlying close fails. -/
theorem disconnectDB_idempotent_safe (s : SysState) (b b2 : Bool) :
    disconnectDB b s = closeHandle b (stopConnectionMonitor s) ∧
    (disconnectDB b s).1.monitorRunning = false ∧
    (disconnectDB b2 (disconnectDB b s).1).1.monitorRunning = false ∧
    (disconnectDB false (disconnectDB false s).1).1 = (disconnectDB false s).1 ∧
    (disconnectDB true s).2 = true := by
  refine ⟨rfl, ?_, ?_, rfl, rfl⟩
  · cases b <;> rfl
  · cases b <;> cases b2 <;> rfl

/-- Claim C9: the failure classifier is total (it is a function into the
five-category type, so every error value gets exactly one category), the
mapping is by code/name equality with the first match winning in the order
of the if/else-if chain, and every error matching none of the listed
codes/names maps to the default category Unknown. -/
theorem classifyError_total_first_match (e : JsError) :
    (classifyError e = DiagnosticCategory.ConnectionRefused ∨
     classifyError e = DiagnosticCategory.NameResolutionFailure ∨
     classifyError e = DiagnosticCategory.MalformedAddress ∨
     classifyError e = DiagnosticCategory.NetworkUnreachable ∨
     classifyError e = DiagnosticCategory.Unknown) ∧
    (e.code = some "ECONNREFUSED" →
      classifyError e = DiagnosticCategory.ConnectionRefused) ∧
    (e.code ≠ some "ECONNREFUSED" → e.code = some "ENOTFOUND" →
      classifyError e = DiagnosticCategory.NameResolutionFailure) ∧
    (e.code ≠ some "ECONNREFUSED" → e.code ≠ some "ENOTFOUND" →
      e.name = some "MongoParseError" →
      classifyError e = DiagnosticCategory.MalformedAddress) ∧
    (e.code ≠ some "ECONNREFUSED" → e.code ≠ some "ENOTFOUND" →
      e.name ≠ some "MongoParseError" → e.name = some "MongoNetworkError" →
      classifyError e = DiagnosticCategory.NetworkUnreachable) ∧
    (e.code ≠ some "ECONNREFUSED" → e.code ≠ some "ENOTFOUND" →
      e.name ≠ some "MongoParseError" → e.name ≠ some "MongoNetworkError" →
      classifyError e = DiagnosticCategory.Unknown) := by
  unfold classifyError
  by_cases h1 : e.code = some "ECONNREFUSED" <;>
    by_cases h2 : e.code = some "ENOTFOUND" <;>
      by_cases h3 : e.name = some "MongoParseError" <;>
        by_cases h4 : e.name = some "MongoNetworkError" <;>
          simp [h1, h2, h3, h4]

/-- Witness for C9: an error whose code matches the first rule and whose
name matches a later rule is classified by the first rule. -/
theorem classifyError_total_first_match_witness :
    classifyError ⟨some "ECONNREFUSED", some "MongoParseError"⟩ =
      DiagnosticCategory.ConnectionRefused :=
  (classifyError_total_first_match ⟨some "ECONNREFUSED", some "MongoParseError"⟩).2.1 rfl

/-- Claim C10: in every health report, connected=true iff the state is
Connected (readyState 1) and the liveness probe succeeded; hence
connected=true implies responsive=true, and a failing probe forces
connected=false even with readyState 1. -/
theorem checkDBHealth_connected_iff (rs : Nat) (ping : Bool)
    (host? db? : Option String) :
    ((checkDBHealth rs ping host? db?).connected = true ↔ rs = 1 ∧ ping = true) ∧
    ((checkDBHealth rs ping host? db?).connected = true →
      (checkDBHealth rs ping host? db?).responsive = true) ∧
    (rs = 1 → ping = false → (checkDBHealth rs ping host? db?).connected = false) := by
  refine ⟨?_, ?_, ?_⟩
  · constructor
    · intro h
      simp [checkDBHealth, Bool.and_eq_true] at h
      exact h
    · intro h
      simp [checkDBHealth, Bool.and_eq_true, h.1, h.2]
  · intro h
    simp [checkDBHealth, Bool.and_eq_true] at h ⊢
    exact h
  · intro h1 h2
    subst h1
    subst h2
    rfl

/-- Witness for C10: a failing probe with readyState 1 yields
connected=false. -/
theorem checkDBHealth_connected_iff_witness :
    (checkDBHealth 1 false none none).connected = false :=
  (checkDBHealth_connected_iff 1 false none none).2.2 rfl rfl

/-- Helper: whenever the retry loop succeeds, the module counter it leaves
behind is 0 (the reset of db.js line 121). -/
theorem connectLoop_success_finalCounter (ok : Nat → Bool) (dur : Nat → Nat) :
    ∀ fuel counter, (connectLoop ok dur counter fuel).success = true →
      (connectLoop ok dur counter fuel).finalCounter = 0 := by
  intro fuel
  induction fuel with
  | zero =>
    intro counter h
    simp [connectLoop] at h
  | succ n ih =>
    intro counter h
    by_cases hc : counter < MAX_RETRIES
    · by_cases hok : ok (counter + 1) = true
      · simp [connectLoop, hc, hok]
      · by_cases ha : counter + 1 < MAX_RETRIES
        · simp only [connectLoop, hc, hok, ha] at h ⊢
          simp at h ⊢
          exact ih _ h
        · simp only [connectLoop, hc, hok, ha] at h ⊢
          simp at h ⊢
          exact ih _ h
    · simp [connectLoop, hc] at h

/-- Claim C1 (amended): for a present, non-empty connection string and a
target failing on every attempt, a `connectDB()` call entered with a zero
counter makes exactly 7 attempts, fails with the fatal non-retryable
startup error, sleeps exactly the backoff delays 2s, 4s, 8s, 15s, 15s, 15s
(59 s in total) between attempts, and its total elapsed wait is the initial
warm-up delay (2 s for a local target, 3 s otherwise) plus those 59 s of
backoff plus the time spent inside the 7 attempts (bounded by the
per-attempt timeouts). -/
theorem connectDB_all_fail (u : String) (ok : Nat → Bool) (dur : Nat → Nat)
    (hu : u ≠ "") (hok : ∀ n, ok n = false) :
    (connectDB (some u) ok dur 0).made = 7 ∧
    (connectDB (some u) ok dur 0).result = ConnectResult.fatalStartup ∧
    (connectDB (some u) ok dur 0).delays = [2000, 4000, 8000, 15000, 15000, 15000] ∧
    (connectDB (some u) ok dur 0).totalWaitMs =
      warmupDelay u + (2000 + 4000 + 8000 + 15000 + 15000 + 15000) +
        (dur 1 + dur 2 + dur 3 + dur 4 + dur 5 + dur 6 + dur 7) := by
  have hloop : connectLoop ok dur 0 (MAX_RETRIES + 1) =
      ⟨7, 7, [2000, 4000, 8000, 15000, 15000, 15000],
        dur 1 + (dur 2 + (dur 3 + (dur 4 + (dur 5 + (dur 6 + (dur 7 + 0)))))),
        false⟩ := by
    simp [connectLoop, MAX_RETRIES, hok, backoffDelay]
  have hdb : connectDB (some u) ok dur 0 =
      ⟨7, 7, warmupDelay u, [2000, 4000, 8000, 15000, 15000, 15000],
        dur 1 + (dur 2 + (dur 3 + (dur 4 + (dur 5 + (dur 6 + (dur 7 + 0)))))),
        ConnectResult.fatalStartup⟩ := by
    unfold connectDB
    simp only [if_neg hu, hloop, reduceIte]
    rfl
  rw [hdb]
  refine ⟨rfl, rfl, rfl, ?_⟩
  simp only [ConnectOutcome.totalWaitMs]
  norm_num [List.sum_cons]
  omega

/-- Witness for C1 (amended) on a concrete local URI with every attempt
failing after the full 15 s server-selection timeout. -/
theorem connectDB_all_fail_witness :
    (connectDB (some "mongodb://127.0.0.1:27017/ai") (fun _ => false)
        (fun _ => 15000) 0).made = 7 ∧
    (connectDB (some "mongodb://127.0.0.1:27017/ai") (fun _ => false)
        (fun _ => 15000) 0).result = ConnectResult.fatalStartup ∧
    (connectDB (some "mongodb://127.0.0.1:27017/ai") (fun _ => false)
        (fun _ => 15000) 0).delays = [2000, 4000, 8000, 15000, 15000, 15000] ∧
    (connectDB (some "mongodb://127.0.0.1:27017/ai") (fun _ => false)
        (fun _ => 15000) 0).totalWaitMs =
      warmupDelay "mongodb://127.0.0.1:27017/ai" +
        (2000 + 4000 + 8000 + 15000 + 15000 + 15000) +
        (15000 + 15000 + 15000 + 15000 + 15000 + 15000 + 15000) :=
  connectDB_all_fail "mongodb://127.0.0.1:27017/ai" (fun _ => false)
    (fun _ => 15000) (by decide) (fun _ => rfl)

/-- Counterexample for C1 as stated: for an always-failing local target
whose every attempt takes the full 15000 ms timeout, the call actually
waits 166000 ms (2000 ms warm-up + 59000 ms backoff + 7 × 15000 ms in
attempts), while the claim's total — the 6 backoff delays plus the
per-attempt timeouts — is 164000 ms: the claim omits the initial warm-up
sleep of db.js lines 100-111. -/
theorem connectDB_total_wait_cex :
    (connectDB (some "mongodb://127.0.0.1:27017/ai") (fun _ => false)
        (fun _ => 15000) 0).totalWaitMs = 166000 ∧
    (2000 + 4000 + 8000 + 15000 + 15000 + 15000) + 7 * 15000 = 164000 := by decide

/-- Claim C6 (amended): the attempt counter is persistent module state and
is NOT reset at the beginning of a `connectDB()` call; it starts at zero
only because the module initialises it to zero, every success resets it to
zero, and the monitor zeroes it before each forced reconnect.  Whenever any
attempt succeeds, `connectDB()` returns the live connection with the
counter reset to zero afterward. -/
theorem connectDB_counter_reset_on_success (uri : Option String)
    (ok : Nat → Bool) (dur : Nat → Nat) (a0 : Nat)
    (h : (connectDB uri ok dur a0).result = ConnectResult.ok) :
    (connectDB uri ok dur a0).finalCounter = 0 := by
  match uri with
  | none => simp [connectDB] at h
  | some u =>
    by_cases hu : u = ""
    · simp [connectDB, hu] at h
    · cases hcase : (connectLoop ok dur a0 (MAX_RETRIES + 1)).success with
      | false => simp [connectDB, hu, hcase] at h
      | true =>
        simp [connectDB, hu,
          connectLoop_success_finalCounter ok dur (MAX_RETRIES + 1) a0 hcase]

/-- Witness for C6 (amended): a target succeeding on the 3rd attempt, from
a zero counter: the call succeeds and leaves the counter at zero. -/
theorem connectDB_counter_reset_on_success_witness :
    (connectDB (some "mongodb://localhost:27017/ai") (fun n => n == 3)
        (fun _ => 0) 0).result = ConnectResult.ok ∧
    (connectDB (some "mongodb://localhost:27017/ai") (fun n => n == 3)
        (fun _ => 0) 0).finalCounter = 0 :=
  ⟨by decide, connectDB_counter_reset_on_success _ _ _ _ (by decide)⟩

/-- Counterexample for C6 as stated: a call entered with the leftover
counter 7 (as after a previous exhausted call) performs zero attempts and
fails fatally even though every attempt would succeed, whereas the same
call entered with a zero counter succeeds — so the attempt counter does
not start at zero at the beginning of every call; `connectDB` never resets
it on entry. -/
theorem connectDB_counter_not_fresh_cex :
    (connectDB (some "mongodb://localhost:27017/ai") (fun _ => true)
        (fun _ => 0) 7).made = 0 ∧
    (connectDB (some "mongodb://localhost:27017/ai") (fun _ => true)
        (fun _ => 0) 7).result = ConnectResult.fatalStartup ∧
    (connectDB (some "mongodb://localhost:27017/ai") (fun _ => true)
        (fun _ => 0) 0).made = 1 ∧
    (connectDB (some "mongodb://localhost:27017/ai") (fun _ => true)
        (fun _ => 0) 0).result = ConnectResult.ok := by decide

/-- Claim C4: a monitor tick that begins while the reconnecting flag is set
is a no-op and does not invoke connect (re-entrancy guard, db.js line 226);
a tick that forces a reconnect leaves the flag cleared whether the
reconnect succeeds or fails (the `finally` of line 269); and a tick that
begins with the flag clear never leaves it set. -/
theorem monitorTick_reentrancy (uri : Option String) (ok : Nat → Bool)
    (dur : Nat → Nat) (rs : Nat) (ping : Bool) (now : Nat) (s : MonState) :
    (s.reconnecting = true → monitorTick uri ok dur rs ping now s = ⟨s, false⟩) ∧
    ((monitorTick uri ok dur rs ping now s).forced = true →
      (monitorTick uri ok dur rs ping now s).st.reconnecting = false) ∧
    (s.reconnecting = false →
      (monitorTick uri ok dur rs ping now s).st.reconnecting = false) := by
  cases hrec : s.reconnecting with
  | true =>
    refine ⟨fun _ => ?_, fun hforced => ?_, fun h => ?_⟩
    · simp [monitorTick, hrec]
    · simp [monitorTick, hrec] at hforced
    · simp [hrec] at h
  | false =>
    have key : (monitorTick uri ok dur rs ping now s).st.reconnecting = false := by
      unfold monitorTick
      dsimp only
      repeat' split
      all_goals simp_all
    exact ⟨fun h => by simp [hrec] at h, fun _ => key, fun _ => key⟩

/-- Witness for C4: a tick starting with the flag set leaves the state
untouched and does not invoke connect. -/
theorem monitorTick_reentrancy_witness :
    monitorTick (some "u") (fun _ => false) (fun _ => 0) 0 true 0
      ⟨none, true, 0⟩ = ⟨⟨none, true, 0⟩, false⟩ :=
  (monitorTick_reentrancy (some "u") (fun _ => false) (fun _ => 0) 0 true 0
    ⟨none, true, 0⟩).1 rfl

/-- Claim C3: on ticks with the flag clear observing a disconnected state
(readyState neither 1 nor 2): the first sighting only records the time and
does not force a reconnect; while the elapsed time since the recorded
sighting is below the 10 s grace period the tick is a no-op; once elapsed
time is at or above the grace period the tick forces exactly one
reconnect, and a failed forced reconnect keeps lastDisconnectedAt at the
original sighting so every subsequent disconnected tick forces again,
while a successful one clears it. -/
theorem monitorTick_grace (uri : Option String) (ok : Nat → Bool)
    (dur : Nat → Nat) (rs : Nat) (ping : Bool) (now t : Nat) (s : MonState)
    (hrs1 : rs ≠ 1) (hrs2 : rs ≠ 2) (hrec : s.reconnecting = false) :
    (s.lastDisconnectedAt = none →
      monitorTick uri ok dur rs ping now s =
        ⟨⟨some now, s.reconnecting, s.connAttempts⟩, false⟩) ∧
    (s.lastDisconnectedAt = some t → now - t < RECONNECT_GRACE_MS →
      monitorTick uri ok dur rs ping now s = ⟨s, false⟩) ∧
    (s.lastDisconnectedAt = some t → RECONNECT_GRACE_MS ≤ now - t →
      (monitorTick uri ok dur rs ping now s).forced = true ∧
      ((connectDB uri ok dur 0).result ≠ ConnectResult.ok →
        (monitorTick uri ok dur rs ping now s).st.lastDisconnectedAt = some t ∧
        ∀ now2, now ≤ now2 →
          (monitorTick uri ok dur rs ping now2
            (monitorTick uri ok dur rs ping now s).st).forced = true) ∧
      ((connectDB uri ok dur 0).result = ConnectResult.ok →
        (monitorTick uri ok dur rs ping now s).st.lastDisconnectedAt = none)) := by
  refine ⟨fun hnone => ?_, fun hsome hlt => ?_, fun hsome hge => ?_⟩
  · simp [monitorTick, hrec, hrs1, hrs2, hnone]
  · simp [monitorTick, hrec, hrs1, hrs2, hsome, hlt]
  · have hnlt : ¬ (now - t < RECONNECT_GRACE_MS) := not_lt.mpr hge
    by_cases hconn : (connectDB uri ok dur 0).result = ConnectResult.ok
    · refine ⟨?_, fun hne => absurd hconn hne, fun _ => ?_⟩ <;>
        simp [monitorTick, hrec, hrs1, hrs2, hsome, hnlt, hconn]
    · refine ⟨?_, fun _ => ⟨?_, ?_⟩, fun heq => absurd heq hconn⟩
      · simp [monitorTick, hrec, hrs1, hrs2, hsome, hnlt, hconn]
      · simp [monitorTick, hrec, hrs1, hrs2, hsome, hnlt, hconn]
      · intro now2 h2
        have hpost : (monitorTick uri ok dur rs ping now s).st =
            ⟨some t, false, (connectDB uri ok dur 0).finalCounter⟩ := by
          simp [monitorTick, hrec, hrs1, hrs2, hsome, hnlt, hconn]
        rw [hpost]
        have hle : now - t ≤ now2 - t := Nat.sub_le_sub_right h2 t
        have hge2 : ¬ (now2 - t < RECONNECT_GRACE_MS) := by omega
        simp [monitorTick, hrs1, hrs2, hge2, hconn]

/-- Witness for C3: exactly at the grace boundary (sighting at time 0,
tick at 10000 ms, disconnected readyState 0, always-failing target) the
tick forces a reconnect. -/
theorem monitorTick_grace_witness :
    (monitorTick (some "u") (fun _ => false) (fun _ => 0) 0 true 10000
      ⟨some 0, false, 0⟩).forced = true :=
  ((monitorTick_grace (some "u") (fun _ => false) (fun _ => 0) 0 true 10000 0
    ⟨some 0, false, 0⟩ (by decide) (by decide) rfl).2.2 rfl (by decide)).1

example : backoffDelay 1 = 2000 := by decide
example : backoffDelay 4 = 15000 := by decide
example : isLocalUri "mongodb://127.0.0.1:27017/ai" = true := by decide
example : isLocalUri "mongodb+srv://u:p@c.mongodb.net/db" = false := by decide
example : (connectDB (some "mongodb://localhost:27017/ai") (fun _ => false)
    (fun _ => 15000) 0).made = 7 := by decide
example : (connectDB (some "mongodb://localhost:27017/ai") (fun _ => false)
    (fun _ => 15000) 0).delays = [2000, 4000, 8000, 15000, 15000, 15000] := by decide
example : (connectDB (some "mongodb://localhost:27017/ai") (fun n => n == 3)
    (fun _ => 0) 0).result = ConnectResult.ok := by decide
example : (connectDB (some "mongodb://localhost:27017/ai") (fun n => n == 3)
    (fun _ => 0) 0).finalCounter = 0 := by decide
example : (connectDB (some "u") (fun _ => true) (fun _ => 0) 7).made = 0 := by decide
